import Mathlib

/-!
Verification of the CROATOA song-lyrics CRUD service (`src/main.py`).

The service keeps a single SQLite table `songs(id INTEGER PRIMARY KEY
AUTOINCREMENT, title TEXT NOT NULL UNIQUE, lyrics TEXT NOT NULL DEFAULT '',
created_at TIMESTAMP DEFAULT CURRENT_TIMESTAMP, updated_at TIMESTAMP DEFAULT
CURRENT_TIMESTAMP)` and exposes one FastAPI handler per CRUD operation plus a
rendered share page.

We embed the table as a list of rows in insertion order together with the
AUTOINCREMENT counter, and each handler as a pure function from the database
(plus the value `CURRENT_TIMESTAMP` would take, passed as the `now` argument)
to an HTTP outcome paired with the successor database.  SQLite's UNIQUE
constraint on `title` — whose violation the handlers observe as
`sqlite3.IntegrityError` — is embedded as the equivalent explicit membership
test on the rows.
-/

namespace Croatoa

/-- A row of the `songs` table (= the `Song` pydantic response model).
Timestamps are the strings SQLite stores, compared only for equality. -/
structure Song where
  id : Nat
  title : String
  lyrics : String
  created_at : String
  updated_at : String
deriving DecidableEq, Repr

/-- The `songs` table: rows in insertion order plus the AUTOINCREMENT
counter (the id the next INSERT receives). -/
structure DB where
  rows : List Song
  nextId : Nat
deriving DecidableEq, Repr

/-- The freshly created table of `init_db`: no rows, AUTOINCREMENT starts
assigning ids at 1. -/
def DB.empty : DB := ⟨[], 1⟩

/-- An `HTTPException(status_code, detail)` raised by a handler. -/
structure HTTPError where
  status : Nat
  detail : String
deriving DecidableEq, Repr

/-- `SELECT * FROM songs WHERE id = ?` followed by `fetchone()`. -/
def findSong (db : DB) (song_id : Nat) : Option Song :=
  db.rows.find? (fun r => r.id == song_id)

/-- Request body of POST: `class SongCreate(BaseModel): title: str;
lyrics: str = ""`. -/
structure SongCreate where
  title : String
  lyrics : String
deriving DecidableEq, Repr

/-- Pydantic parsing of a POST body: a missing `lyrics` key takes the
declared default `""`. -/
def SongCreate.ofBody (title : String) (lyrics : Option String) : SongCreate :=
  ⟨title, lyrics.getD ""⟩

/-- Request body of PUT: `class SongUpdate(BaseModel): title: Optional[str]
= None; lyrics: Optional[str] = None`. -/
structure SongUpdate where
  title : Option String
  lyrics : Option String
deriving DecidableEq, Repr

/-- Comparator of `ORDER BY title` (SQLite BINARY collation on TEXT, i.e.
bytewise order of the UTF-8 encodings, which agrees with Lean's
code-point-lexicographic `String` order). -/
def songLe (a b : Song) : Bool := decide (a.title ≤ b.title)

/-- `GET /api/v1/songs` (`get_songs`): `SELECT * FROM songs ORDER BY title`
then `fetchall()`. -/
def get_songs (db : DB) : List Song :=
  db.rows.mergeSort songLe

/-- `GET /api/v1/songs/{song_id}` (`get_song`): fetch by id, 404 when the
row is absent. -/
def get_song (db : DB) (song_id : Nat) : Except HTTPError Song :=
  match findSong db song_id with
  | none => .error ⟨404, "Song not found"⟩
  | some s => .ok s

/-- `POST /api/v1/songs` (`create_song`): `INSERT INTO songs (title, lyrics)
VALUES (?, ?)`; the UNIQUE constraint on `title` raises `IntegrityError`
(→ 400) exactly when some stored row already carries the new title;
otherwise the row is inserted with id `lastrowid` and both timestamps
`CURRENT_TIMESTAMP`, then re-SELECTed by that id and returned.  The second
component is the table after the request. -/
def create_song (db : DB) (now : String) (song : SongCreate) :
    Except HTTPError Song × DB :=
  if db.rows.any (fun r => r.title == song.title) then
    (.error ⟨400, "Song with this title already exists"⟩, db)
  else
    let created : Song := ⟨db.nextId, song.title, song.lyrics, now, now⟩
    let db2 : DB := ⟨db.rows ++ [created], db.nextId + 1⟩
    match findSong db2 db.nextId with
    | some created_song => (.ok created_song, db2)
    | none => (.error ⟨500, "Internal Server Error"⟩, db2)

/-- The effect of `UPDATE songs SET … WHERE id = ?` on one row: each
supplied field overwrites, `updated_at = CURRENT_TIMESTAMP`. -/
def applyUpdate (u : SongUpdate) (now : String) (r : Song) : Song :=
  { r with
    title := u.title.getD r.title
    lyrics := u.lyrics.getD r.lyrics
    updated_at := now }

/-- One row of the table after the UPDATE statement: only rows matching the
WHERE clause change. -/
def updateRow (u : SongUpdate) (now : String) (song_id : Nat) (r : Song) : Song :=
  if r.id == song_id then applyUpdate u now r else r

/-- The UNIQUE constraint check of the UPDATE statement: setting `title = t`
raises `IntegrityError` exactly when a row other than the targeted one
already carries title `t`; an UPDATE that does not touch `title` cannot
violate the constraint. -/
def titleConflict (db : DB) (song_id : Nat) (u : SongUpdate) : Bool :=
  match u.title with
  | none => false
  | some t => db.rows.any (fun r => r.id != song_id && r.title == t)

/-- `PUT /api/v1/songs/{song_id}` (`update_song`): 404 when the id is
absent; with no supplied field the fetched row is returned and nothing is
written; otherwise the UPDATE runs (`IntegrityError` → 400 leaves the table
untouched) and the row is re-SELECTed by id and returned (`dict(None)`
on a failed re-fetch would crash the handler → 500). -/
def update_song (db : DB) (now : String) (song_id : Nat) (u : SongUpdate) :
    Except HTTPError Song × DB :=
  match findSong db song_id with
  | none => (.error ⟨404, "Song not found"⟩, db)
  | some existing =>
    if u.title.isSome || u.lyrics.isSome then
      if titleConflict db song_id u then
        (.error ⟨400, "Song with this title already exists"⟩, db)
      else
        let db2 : DB := ⟨db.rows.map (updateRow u now song_id), db.nextId⟩
        match findSong db2 song_id with
        | some updated => (.ok updated, db2)
        | none => (.error ⟨500, "Internal Server Error"⟩, db2)
    else
      (.ok existing, db)

/-- `DELETE /api/v1/songs/{song_id}` (`delete_song`): 404 when the id is
absent, else `DELETE FROM songs WHERE id = ?` and the confirmation
message. -/
def delete_song (db : DB) (song_id : Nat) : Except HTTPError String × DB :=
  match findSong db song_id with
  | none => (.error ⟨404, "Song not found"⟩, db)
  | some _ =>
    (.ok "Song deleted successfully", ⟨db.rows.filter (fun r => r.id != song_id), db.nextId⟩)

/-- The (method, path) pairs of the route decorators of `src/main.py`, in
source order.  `\x7b`/`\x7d` are the literal braces of the path
parameters. -/
def routes : List (String × String) :=
  [("GET", "/api/v1/songs"),
   ("GET", "/api/v1/songs/\x7bsong_id\x7d"),
   ("POST", "/api/v1/songs"),
   ("PUT", "/api/v1/songs/\x7bsong_id\x7d"),
   ("DELETE", "/api/v1/songs/\x7bsong_id\x7d"),
   ("GET", "/"),
   ("GET", "/share/\x7bsong_id\x7d")]

/-! The share page template of `share_song`, split at the f-string
interpolation slots.  Literal braces of the HTML/CSS are written
`\x7b`/`\x7d` and apostrophes `\x27`. -/

def share_part1 : String :=
  "\n<!DOCTYPE html>\n<html lang=\"en\">\n<head>\n    <meta charset=\"UTF-8\">\n    <meta name=\"viewport\" content=\"width=device-width, initial-scale=1.0\">\n    <title>"

def share_part2 : String :=
  " - CROATOA</title>\n    <link rel=\"stylesheet\" href=\"https://cdnjs.cloudflare.com/ajax/libs/tailwindcss/2.2.19/tailwind.min.css\">\n    <link rel=\"preconnect\" href=\"https://fonts.googleapis.com\">\n    <link rel=\"preconnect\" href=\"https://fonts.gstatic.com\" crossorigin>\n    <link href=\"https://fonts.googleapis.com/css2?family=Inter:wght@300;400;500;600;700;800;900&family=JetBrains+Mono:wght@300;400;500;600;700&display=swap\" rel=\"stylesheet\">\n    <style>\n        :root \x7b\n            --bg-primary: #0a0a0a;\n            --bg-secondary: #1a1a1a;\n            --bg-tertiary: #2a2a2a;\n            --text-primary: #ffffff;\n            --text-secondary: #a0a0a0;\n            --text-accent: #00ff88;\n            --border-color: #333;\n            --glass-bg: rgba(255, 255, 255, 0.05);\n            --glass-border: rgba(255, 255, 255, 0.1);\n        \x7d\n        \n        * \x7b\n            font-family: \x27Inter\x27, -apple-system, BlinkMacSystemFont, sans-serif;\n        \x7d\n        \n        body \x7b\n            background: var(--bg-primary);\n            background-image: \n                radial-gradient(circle at 20% 80%, rgba(0, 255, 136, 0.1) 0%, transparent 50%),\n                radial-gradient(circle at 80% 20%, rgba(255, 0, 136, 0.1) 0%, transparent 50%),\n                radial-gradient(circle at 40% 40%, rgba(0, 136, 255, 0.1) 0%, transparent 50%);\n            min-height: 100vh;\n            color: var(--text-primary);\n            overflow-x: hidden;\n        \x7d\n        \n        .glass-card \x7b\n            background: var(--glass-bg);\n            backdrop-filter: blur(10px);\n            border: 1px solid var(--glass-border);\n            border-radius: 16px;\n            box-shadow: 0 8px 32px rgba(0, 0, 0, 0.3);\n        \x7d\n        \n        .neon-text \x7b\n            color: var(--text-accent);\n            text-shadow: 0 0 10px rgba(0, 255, 136, 0.5);\n        \x7d\n        \n        .lyrics-display \x7b\n            background: rgba(0, 0, 0, 0.3);\n            border: 1px solid rgba(255, 255, 255, 0.1);\n            border-radius: 12px;\n            padding: 24px;\n            color: var(--text-primary);\n            font-family: \x27JetBrains Mono\x27, monospace;\n            font-size: 14px;\n            line-height: 1.6;\n            white-space: pre-wrap;\n            max-height: 70vh;\n            overflow-y: auto;\n        \x7d\n        \n        .header-logo \x7b\n            background: linear-gradient(45deg, #00ff88, #00cc6a);\n            -webkit-background-clip: text;\n            -webkit-text-fill-color: transparent;\n            background-clip: text;\n            font-weight: 900;\n            font-size: 2.5rem;\n            letter-spacing: -0.05em;\n            text-align: center;\n            margin-bottom: 2rem;\n        \x7d\n        \n        .btn-secondary \x7b\n            background: rgba(255, 255, 255, 0.1);\n            color: var(--text-primary);\n            border: 1px solid rgba(255, 255, 255, 0.2);\n            padding: 8px 16px;\n            border-radius: 8px;\n            font-weight: 500;\n            cursor: pointer;\n            transition: all 0.3s cubic-bezier(0.4, 0, 0.2, 1);\n            text-decoration: none;\n            display: inline-flex;\n            align-items: center;\n        \x7d\n        \n        .btn-secondary:hover \x7b\n            background: rgba(0, 255, 136, 0.1);\n            border-color: var(--text-accent);\n            transform: translateY(-2px);\n        \x7d\n    </style>\n</head>\n<body>\n    <div class=\"container mx-auto p-8 max-w-4xl\">\n        <div class=\"text-center mb-8\">\n            <h1 class=\"header-logo\">CROATOA</h1>\n            <a href=\"/\" class=\"btn-secondary\">\n                <svg class=\"w-4 h-4 mr-2\" fill=\"currentColor\" viewBox=\"0 0 20 20\">\n                    <path fill-rule=\"evenodd\" d=\"M9.707 16.707a1 1 0 01-1.414 0l-6-6a1 1 0 010-1.414l6-6a1 1 0 011.414 1.414L5.414 9H17a1 1 0 110 2H5.414l4.293 4.293a1 1 0 010 1.414z\" clip-rule=\"evenodd\"/>\n                </svg>\n                Back to Song Manager\n            </a>\n        </div>\n        \n        <div class=\"glass-card p-8\">\n            <div class=\"text-center mb-8\">\n                <h2 class=\"text-3xl font-bold neon-text mb-2\">"

def share_part3 : String :=
  "</h2>\n                <p class=\"text-gray-400\">by CROATOA</p>\n            </div>\n            \n            <div class=\"lyrics-display\">\n"

def share_part4 : String :=
  "\n            </div>\n            \n            <div class=\"text-center mt-6 text-sm text-gray-500\">\n                <p>Created: "

def share_part5 : String :=
  "</p>\n                "

def share_part6 : String :=
  "\n            </div>\n        </div>\n    </div>\n</body>\n</html>\n    "

/-- The lyrics slot of the share page: Python's
`song_dict['lyrics'] if song_dict['lyrics'] else '…'` — the empty string is
falsy, so empty lyrics render the placeholder. -/
def lyrics_display (s : Song) : String :=
  if s.lyrics ≠ "" then s.lyrics else "No lyrics available for this song."

/-- The conditional last-updated slot of the share page: emitted exactly
when the stored `updated_at` string differs from the stored `created_at`
string (literal string comparison). -/
def last_updated_line (s : Song) : String :=
  if s.updated_at ≠ s.created_at then
    "<p>Last updated: " ++ (s.updated_at ++ "</p>")
  else ""

/-- The full HTML document `share_song` builds for a fetched row. -/
def share_html (s : Song) : String :=
  share_part1 ++ (s.title ++ (share_part2 ++ (s.title ++ (share_part3 ++
    (lyrics_display s ++ (share_part4 ++ (s.created_at ++ (share_part5 ++
    (last_updated_line s ++ share_part6)))))))))

/-- `GET /share/{song_id}` (`share_song`): fetch by id, 404 when absent,
else the rendered HTML page. -/
def share_song (db : DB) (song_id : Nat) : Except HTTPError String :=
  match findSong db song_id with
  | none => .error ⟨404, "Song not found"⟩
  | some s => .ok (share_html s)

/-! ### Sample data for concrete witnesses -/

def songAlpha : Song :=
  ⟨1, "Alpha", "la la", "2024-01-01 00:00:00", "2024-01-01 00:00:00"⟩

def songBeta : Song :=
  ⟨2, "Beta", "", "2024-01-01 00:00:01", "2024-01-01 00:00:01"⟩

def sampleDB : DB := ⟨[songAlpha, songBeta], 3⟩

/-! ### Helper lemmas -/

theorem updateRow_id (u : SongUpdate) (now : String) (song_id : Nat) (r : Song) :
    (updateRow u now song_id r).id = r.id := by
  by_cases h : (r.id == song_id) = true <;> simp [updateRow, applyUpdate, h]

theorem find?_map_updateRow (u : SongUpdate) (now : String) (song_id : Nat) :
    ∀ (l : List Song) (e : Song),
      l.find? (fun r => r.id == song_id) = some e →
      (l.map (updateRow u now song_id)).find? (fun r => r.id == song_id) =
        some (applyUpdate u now e) := by
  intro l
  induction l with
  | nil => intro e h; simp at h
  | cons a l ih =>
    intro e h
    rw [List.map_cons]
    rcases List.find?_cons_eq_some.mp h with ⟨hpa, rfl⟩ | ⟨hpa, hrest⟩
    · refine List.find?_cons_eq_some.mpr (Or.inl ⟨?_, ?_⟩)
      · simpa [updateRow_id] using hpa
      · have ha : (a.id == song_id) = true := hpa
        simp [updateRow, ha]
    · refine List.find?_cons_eq_some.mpr (Or.inr ⟨?_, ?_⟩)
      · simpa [updateRow_id] using hpa
      · exact ih e hrest

/-- The well-formedness the SQLite schema guarantees of the stored table:
`id` is a primary key (pairwise distinct), `title` is UNIQUE (pairwise
distinct) and AUTOINCREMENT keeps every assigned id below the counter. -/
def Inv (db : DB) : Prop :=
  db.rows.Pairwise (fun a b => a.id ≠ b.id) ∧
  db.rows.Pairwise (fun a b => a.title ≠ b.title) ∧
  ∀ r ∈ db.rows, r.id < db.nextId

theorem Inv_empty : Inv DB.empty := by
  refine ⟨?_, ?_, ?_⟩ <;> simp [DB.empty]

theorem Inv_create (db : DB) (now : String) (sc : SongCreate) (hInv : Inv db) :
    Inv (create_song db now sc).2 := by
  obtain ⟨hid, htitle, hlt⟩ := hInv
  unfold create_song
  by_cases hc : db.rows.any (fun r => r.title == sc.title) = true
  · rw [if_pos hc]
    exact ⟨hid, htitle, hlt⟩
  · rw [if_neg hc]
    have hmain :
        Inv ⟨db.rows ++ [⟨db.nextId, sc.title, sc.lyrics, now, now⟩], db.nextId + 1⟩ := by
      have hfresh : ∀ r ∈ db.rows, r.title ≠ sc.title := by
        intro r hr
        have := (List.any_eq_false.mp (Bool.eq_false_iff.mpr hc)) r hr
        simpa using this
      refine ⟨?_, ?_, ?_⟩
      · rw [List.pairwise_append]
        refine ⟨hid, by simp, ?_⟩
        intro a ha b hb
        simp only [List.mem_singleton] at hb
        subst hb
        exact Nat.ne_of_lt (hlt a ha)
      · rw [List.pairwise_append]
        refine ⟨htitle, by simp, ?_⟩
        intro a ha b hb
        simp only [List.mem_singleton] at hb
        subst hb
        exact hfresh a ha
      · intro r hr
        rcases List.mem_append.mp hr with h | h
        · exact Nat.lt_succ_of_lt (hlt r h)
        · simp only [List.mem_singleton] at h
          subst h
          exact Nat.lt_succ_self _
    dsimp only
    cases hf2 : findSong
        ⟨db.rows ++ [⟨db.nextId, sc.title, sc.lyrics, now, now⟩], db.nextId + 1⟩
        db.nextId <;>
      exact hmain

theorem Inv_update (db : DB) (now : String) (song_id : Nat) (u : SongUpdate)
    (hInv : Inv db) : Inv (update_song db now song_id u).2 := by
  obtain ⟨hid, htitle, hlt⟩ := hInv
  unfold update_song
  cases hfind : findSong db song_id with
  | none => exact ⟨hid, htitle, hlt⟩
  | some existing =>
    dsimp only
    by_cases hsome : (u.title.isSome || u.lyrics.isSome) = true
    · rw [if_pos hsome]
      by_cases hconf : titleConflict db song_id u = true
      · rw [if_pos hconf]
        exact ⟨hid, htitle, hlt⟩
      · rw [if_neg hconf]
        have hmain : Inv ⟨db.rows.map (updateRow u now song_id), db.nextId⟩ := by
          refine ⟨?_, ?_, ?_⟩
          · rw [List.pairwise_map]
            exact hid.imp (fun hab => by simpa [updateRow_id] using hab)
          · rw [List.pairwise_map]
            have hand : db.rows.Pairwise
                (fun a b => a.id ≠ b.id ∧ a.title ≠ b.title) := hid.and htitle
            refine hand.imp_of_mem ?_
            intro a b ha hb hab
            cases hut : u.title with
            | none =>
              have htr : ∀ r, (updateRow u now song_id r).title = r.title := by
                intro r
                by_cases h : (r.id == song_id) = true <;>
                  simp [updateRow, applyUpdate, h, hut]
              rw [htr, htr]
              exact hab.2
            | some t =>
              have hnc0 : db.rows.any
                  (fun r => r.id != song_id && r.title == t) = false := by
                have hcf : titleConflict db song_id u = false :=
                  Bool.eq_false_iff.mpr hconf
                simpa [titleConflict, hut] using hcf
              have hnc : ∀ r ∈ db.rows, r.id ≠ song_id → r.title ≠ t := by
                intro r hr hrid
                have h2 := List.any_eq_false.mp hnc0 r hr
                simp only [Bool.and_eq_true, bne_iff_ne, beq_iff_eq,
                  not_and] at h2
                exact h2 hrid
              have htr : ∀ r : Song, (updateRow u now song_id r).title =
                  if r.id = song_id then t else r.title := by
                intro r
                by_cases h : r.id = song_id <;>
                  simp [updateRow, applyUpdate, h, hut]
              rw [htr a, htr b]
              by_cases haid : a.id = song_id <;> by_cases hbid : b.id = song_id
              · exact absurd (haid.trans hbid.symm) hab.1
              · rw [if_pos haid, if_neg hbid]
                exact (hnc b hb hbid).symm
              · rw [if_neg haid, if_pos hbid]
                exact hnc a ha haid
              · rw [if_neg haid, if_neg hbid]
                exact hab.2
          · intro r hr
            rcases List.mem_map.mp hr with ⟨x, hx, rfl⟩
            rw [updateRow_id]
            exact hlt x hx
        cases hf2 : findSong
            ⟨db.rows.map (updateRow u now song_id), db.nextId⟩ song_id <;>
          exact hmain
    · rw [if_neg hsome]
      exact ⟨hid, htitle, hlt⟩

theorem Inv_delete (db : DB) (song_id : Nat) (hInv : Inv db) :
    Inv (delete_song db song_id).2 := by
  obtain ⟨hid, htitle, hlt⟩ := hInv
  unfold delete_song
  cases hfind : findSong db song_id with
  | none => exact ⟨hid, htitle, hlt⟩
  | some s =>
    refine ⟨?_, ?_, ?_⟩
    · exact hid.sublist (List.filter_sublist _)
    · exact htitle.sublist (List.filter_sublist _)
    · intro r hr
      exact hlt r (List.mem_of_mem_filter hr)

/-- The states the store can be in: any sequence of create / update /
delete requests from the freshly initialised table.  Requests that fail
return the table unchanged, so the successful ones generate all states. -/
inductive Reachable : DB → Prop
  | init : Reachable DB.empty
  | create (db : DB) (now : String) (sc : SongCreate) :
      Reachable db → Reachable (create_song db now sc).2
  | update (db : DB) (now : String) (song_id : Nat) (u : SongUpdate) :
      Reachable db → Reachable (update_song db now song_id u).2
  | delete (db : DB) (song_id : Nat) :
      Reachable db → Reachable (delete_song db song_id).2

theorem Inv_reachable (db : DB) (h : Reachable db) : Inv db := by
  induction h with
  | init => exact Inv_empty
  | create db now sc _ ih => exact Inv_create db now sc ih
  | update db now song_id u _ ih => exact Inv_update db now song_id u ih
  | delete db song_id _ ih => exact Inv_delete db song_id ih

/-! ### Claim theorems -/

/-- **C1**: for every reachable store state — any sequence of insert,
update and delete requests starting from the empty store — no two live
records share a `title`, titles being compared case-sensitively by exact
match; every operation preserves this invariant (the reachability
induction is exactly one preservation proof per operation). -/
theorem reachable_titles_distinct (db : DB) (h : Reachable db) :
    db.rows.Pairwise (fun a b => a.title ≠ b.title) :=
  (Inv_reachable db h).2.1

theorem reachable_titles_distinct_witness :
    ((update_song (create_song (create_song DB.empty "t0" ⟨"Alpha", "la"⟩).2
        "t1" ⟨"Beta", ""⟩).2 "t2" 1 ⟨some "Gamma", none⟩).2).rows.Pairwise
      (fun a b => a.title ≠ b.title) :=
  reachable_titles_distinct _
    (Reachable.update _ "t2" 1 ⟨some "Gamma", none⟩
      (Reachable.create _ "t1" ⟨"Beta", ""⟩
        (Reachable.create _ "t0" ⟨"Alpha", "la"⟩ Reachable.init)))

/-- **C2**: `update_song` fails with HTTP 404 (`"Song not found"`) when no
record carries the requested id; when the record exists and the supplied
new title equals the title of a different stored record it fails with
HTTP 400 (`"Song with this title already exists"`) and the store — hence
the targeted record, every field included — is left unchanged. -/
theorem update_song_errors (db : DB) (now : String) (song_id : Nat)
    (u : SongUpdate) :
    (findSong db song_id = none →
      update_song db now song_id u = (.error ⟨404, "Song not found"⟩, db)) ∧
    (∀ e t, findSong db song_id = some e → u.title = some t →
      (∃ r ∈ db.rows, r.id ≠ song_id ∧ r.title = t) →
      update_song db now song_id u =
        (.error ⟨400, "Song with this title already exists"⟩, db) ∧
      findSong (update_song db now song_id u).2 song_id = some e) := by
  constructor
  · intro h
    unfold update_song
    rw [h]
  · intro e t he ht hex
    have hconf : titleConflict db song_id u = true := by
      rcases hex with ⟨r, hr, hrid, hrt⟩
      simp only [titleConflict, ht]
      exact List.any_eq_true.mpr ⟨r, hr, by simp [hrid, hrt]⟩
    have hsome : (u.title.isSome || u.lyrics.isSome) = true := by
      simp [ht]
    have heq : update_song db now song_id u =
        (.error ⟨400, "Song with this title already exists"⟩, db) := by
      unfold update_song
      rw [he]
      dsimp only
      rw [if_pos hsome, if_pos hconf]
    exact ⟨heq, by rw [heq]; exact he⟩

theorem update_song_errors_witness :
    update_song sampleDB "2024-02-02 00:00:00" 1 ⟨some "Beta", none⟩ =
      (.error ⟨400, "Song with this title already exists"⟩, sampleDB) ∧
    findSong
      (update_song sampleDB "2024-02-02 00:00:00" 1 ⟨some "Beta", none⟩).2 1 =
      some songAlpha :=
  (update_song_errors sampleDB "2024-02-02 00:00:00" 1 ⟨some "Beta", none⟩).2
    songAlpha "Beta" (by decide) rfl ⟨songBeta, by decide, by decide, by decide⟩

/-- **C3**: creating a song whose title coincides exactly with the title of
a stored record fails with HTTP 400 and leaves the store unchanged — in
particular no record is added and the store size stays the same. -/
theorem create_song_conflict (db : DB) (now : String) (sc : SongCreate)
    (h : ∃ r ∈ db.rows, r.title = sc.title) :
    create_song db now sc =
      (.error ⟨400, "Song with this title already exists"⟩, db) ∧
    (create_song db now sc).2.rows.length = db.rows.length := by
  have hany : db.rows.any (fun r => r.title == sc.title) = true := by
    rcases h with ⟨r, hr, ht⟩
    exact List.any_eq_true.mpr ⟨r, hr, by simp [ht]⟩
  have heq : create_song db now sc =
      (.error ⟨400, "Song with this title already exists"⟩, db) := by
    unfold create_song
    rw [if_pos hany]
  exact ⟨heq, by rw [heq]⟩

theorem create_song_conflict_witness :
    create_song sampleDB "2024-02-02 00:00:00" ⟨"Alpha", "x"⟩ =
      (.error ⟨400, "Song with this title already exists"⟩, sampleDB) ∧
    (create_song sampleDB "2024-02-02 00:00:00" ⟨"Alpha", "x"⟩).2.rows.length =
      sampleDB.rows.length :=
  create_song_conflict sampleDB "2024-02-02 00:00:00" ⟨"Alpha", "x"⟩
    ⟨songAlpha, by decide, by decide⟩

/-- **C4**: an update supplying neither `title` nor `lyrics` succeeds and
returns the stored record entirely unchanged — `updated_at` included — and
writes nothing; conversely every successful update that supplies at least
one field stamps `updated_at` with the statement's `CURRENT_TIMESTAMP`,
so `updated_at` is refreshed exactly when a field was supplied. -/
theorem update_song_noop (db : DB) (now : String) (song_id : Nat) (e : Song)
    (h : findSong db song_id = some e) :
    update_song db now song_id ⟨none, none⟩ = (.ok e, db) ∧
    (∀ u : SongUpdate, (u.title.isSome || u.lyrics.isSome) = true →
      ∀ s db2, update_song db now song_id u = (.ok s, db2) →
      s.updated_at = now) := by
  constructor
  · unfold update_song
    rw [h]
    rfl
  · intro u hu s db2 heq
    unfold update_song at heq
    rw [h] at heq
    dsimp only at heq
    rw [if_pos hu] at heq
    by_cases hconf : titleConflict db song_id u = true
    · rw [if_pos hconf] at heq
      simp at heq
    · rw [if_neg hconf] at heq
      have hf := find?_map_updateRow u now song_id db.rows e h
      have hf' : findSong ⟨db.rows.map (updateRow u now song_id), db.nextId⟩
          song_id = some (applyUpdate u now e) := hf
      rw [hf'] at heq
      dsimp only at heq
      have hs : s = applyUpdate u now e := by
        have := congrArg Prod.fst heq
        simpa using this.symm
      rw [hs]
      rfl

theorem update_song_noop_witness :
    update_song sampleDB "2024-03-03 00:00:00" 2 ⟨none, none⟩ =
      (.ok songBeta, sampleDB) ∧
    (Song.mk 2 "Gamma" "" "2024-01-01 00:00:01"
        "2024-03-03 00:00:00").updated_at = "2024-03-03 00:00:00" :=
  ⟨(update_song_noop sampleDB "2024-03-03 00:00:00" 2 songBeta (by decide)).1,
   (update_song_noop sampleDB "2024-03-03 00:00:00" 2 songBeta (by decide)).2
     ⟨some "Gamma", none⟩ (by decide)
     ⟨2, "Gamma", "", "2024-01-01 00:00:01", "2024-03-03 00:00:00"⟩
     ⟨[songAlpha, ⟨2, "Gamma", "", "2024-01-01 00:00:01",
        "2024-03-03 00:00:00"⟩], 3⟩ rfl⟩

/-- **C7**: deleting an absent id fails with HTTP 404; deleting a present
id returns 200 with the confirmation message `"Song deleted successfully"`
and removes the record, so a subsequent get of that id answers 404. -/
theorem delete_song_spec (db : DB) (song_id : Nat) :
    (findSong db song_id = none →
      delete_song db song_id = (.error ⟨404, "Song not found"⟩, db)) ∧
    (∀ s, findSong db song_id = some s →
      (delete_song db song_id).1 = .ok "Song deleted successfully" ∧
      get_song (delete_song db song_id).2 song_id =
        .error ⟨404, "Song not found"⟩) := by
  constructor
  · intro h
    unfold delete_song
    rw [h]
  · intro s h
    have hd : delete_song db song_id =
        (.ok "Song deleted successfully",
          ⟨db.rows.filter (fun r => r.id != song_id), db.nextId⟩) := by
      unfold delete_song
      rw [h]
    refine ⟨by rw [hd], ?_⟩
    rw [hd]
    have hnone : findSong
        ⟨db.rows.filter (fun r => r.id != song_id), db.nextId⟩ song_id = none := by
      unfold findSong
      rw [List.find?_eq_none]
      intro x hx
      have := (List.mem_filter.mp hx).2
      simpa using this
    unfold get_song
    rw [hnone]

theorem delete_song_spec_witness :
    (delete_song sampleDB 2).1 = .ok "Song deleted successfully" ∧
    get_song (delete_song sampleDB 2).2 2 = .error ⟨404, "Song not found"⟩ :=
  (delete_song_spec sampleDB 2).2 songBeta (by decide)

/-- **C5** (counterexample): the spec's interface table places the CRUD
handlers at `GET /songs`, `GET/PUT/DELETE /songs/{id}` and `POST /songs`,
but no route decorator in the code uses any of those paths. -/
theorem routes_not_bare :
    ("GET", "/songs") ∉ routes ∧
    ("GET", "/songs/\x7bsong_id\x7d") ∉ routes ∧
    ("POST", "/songs") ∉ routes ∧
    ("PUT", "/songs/\x7bsong_id\x7d") ∉ routes ∧
    ("DELETE", "/songs/\x7bsong_id\x7d") ∉ routes := by
  decide

/-- **C5** (amended): each CRUD handler is exposed at exactly the HTTP
method and path of its decorator, which mounts the CRUD surface under the
`/api/v1` prefix: GET `/api/v1/songs`, GET `/api/v1/songs/{song_id}`,
POST `/api/v1/songs`, PUT `/api/v1/songs/{song_id}`,
DELETE `/api/v1/songs/{song_id}`. -/
theorem routes_api_v1 :
    ("GET", "/api/v1/songs") ∈ routes ∧
    ("GET", "/api/v1/songs/\x7bsong_id\x7d") ∈ routes ∧
    ("POST", "/api/v1/songs") ∈ routes ∧
    ("PUT", "/api/v1/songs/\x7bsong_id\x7d") ∈ routes ∧
    ("DELETE", "/api/v1/songs/\x7bsong_id\x7d") ∈ routes := by
  decide

/-- **C6**: `get_songs` returns the full stored sequence — a permutation
of the table's rows, hence independent of insertion order — sorted by
title in ascending order. -/
theorem get_songs_sorted (db : DB) :
    (get_songs db).Perm db.rows ∧
    (get_songs db).Pairwise (fun a b => a.title ≤ b.title) := by
  constructor
  · exact List.mergeSort_perm db.rows songLe
  · have h : (db.rows.mergeSort songLe).Pairwise
        (fun a b => songLe a b = true) :=
      List.sorted_mergeSort
        (fun a b c h1 h2 => by
          simp only [songLe, decide_eq_true_eq] at h1 h2 ⊢
          exact le_trans h1 h2)
        (fun a b => by
          simp only [songLe, Bool.or_eq_true, decide_eq_true_eq]
          exact le_total a.title b.title)
        db.rows
    exact h.imp (fun hab => by simpa [songLe] using hab)

/-- **C8**: on a well-formed store, creating a song whose title collides
with no stored record succeeds, inserting and returning the record with
the AUTOINCREMENT id, both timestamps set to the statement's
`CURRENT_TIMESTAMP`, and the requested lyrics — which pydantic defaults
to `""` when the request body omits them. -/
theorem create_song_ok (db : DB) (now : String) (sc : SongCreate)
    (hInv : Inv db) (h : ∀ r ∈ db.rows, r.title ≠ sc.title) :
    create_song db now sc =
      (.ok ⟨db.nextId, sc.title, sc.lyrics, now, now⟩,
        ⟨db.rows ++ [⟨db.nextId, sc.title, sc.lyrics, now, now⟩],
          db.nextId + 1⟩) ∧
    (∀ t, (SongCreate.ofBody t none).lyrics = "") := by
  refine ⟨?_, fun t => rfl⟩
  have hany : db.rows.any (fun r => r.title == sc.title) = false := by
    rw [List.any_eq_false]
    intro r hr
    simpa using h r hr
  unfold create_song
  rw [if_neg (by simp [hany])]
  dsimp only
  have hfind : findSong
      ⟨db.rows ++ [⟨db.nextId, sc.title, sc.lyrics, now, now⟩],
        db.nextId + 1⟩ db.nextId =
      some ⟨db.nextId, sc.title, sc.lyrics, now, now⟩ := by
    unfold findSong
    rw [List.find?_append]
    have h1 : db.rows.find? (fun r => r.id == db.nextId) = none := by
      rw [List.find?_eq_none]
      intro x hx
      simpa using Nat.ne_of_lt (hInv.2.2 x hx)
    rw [h1]
    simp
  rw [hfind]

theorem create_song_ok_witness :
    create_song sampleDB "2024-04-04 00:00:00" (SongCreate.ofBody "Gamma" none) =
      (.ok ⟨3, "Gamma", "", "2024-04-04 00:00:00", "2024-04-04 00:00:00"⟩,
        ⟨[songAlpha, songBeta,
          ⟨3, "Gamma", "", "2024-04-04 00:00:00", "2024-04-04 00:00:00"⟩], 4⟩) ∧
    (∀ t, (SongCreate.ofBody t none).lyrics = "") :=
  create_song_ok sampleDB "2024-04-04 00:00:00" (SongCreate.ofBody "Gamma" none)
    ⟨by simp [sampleDB, songAlpha, songBeta],
     by simp [sampleDB, songAlpha, songBeta],
     by simp [sampleDB, songAlpha, songBeta]⟩
    (by decide)

/-! ### Occurrence of the interpolated fields in the rendered share page -/

/-- `pat` occurs as a contiguous substring of `s`. -/
def strOccurs (pat s : String) : Prop := ∃ a b, s = a ++ (pat ++ b)

theorem share_html_title_occurs (s : Song) :
    strOccurs s.title (share_html s) :=
  ⟨share_part1,
   share_part2 ++ (s.title ++ (share_part3 ++ (lyrics_display s ++
     (share_part4 ++ (s.created_at ++ (share_part5 ++
     (last_updated_line s ++ share_part6))))))),
   rfl⟩

theorem share_html_lyrics_occurs (s : Song) :
    strOccurs (lyrics_display s) (share_html s) :=
  ⟨share_part1 ++ (s.title ++ (share_part2 ++ (s.title ++ share_part3))),
   share_part4 ++ (s.created_at ++ (share_part5 ++
     (last_updated_line s ++ share_part6))),
   by simp [share_html, String.append_assoc]⟩

theorem share_html_created_occurs (s : Song) :
    strOccurs s.created_at (share_html s) :=
  ⟨share_part1 ++ (s.title ++ (share_part2 ++ (s.title ++ (share_part3 ++
     (lyrics_display s ++ share_part4))))),
   share_part5 ++ (last_updated_line s ++ share_part6),
   by simp [share_html, String.append_assoc]⟩

theorem share_html_updated_occurs (s : Song) :
    strOccurs (last_updated_line s) (share_html s) :=
  ⟨share_part1 ++ (s.title ++ (share_part2 ++ (s.title ++ (share_part3 ++
     (lyrics_display s ++ (share_part4 ++ (s.created_at ++ share_part5))))))),
   share_part6,
   by simp [share_html, String.append_assoc]⟩

/-- **C9**: the share handler answers 404 when the id is absent; when
present it returns the HTML page, which embeds the record's title, its
lyrics slot and its `created_at`; the page's last-updated slot carries the
`"<p>Last updated: …</p>"` line exactly when the stored `updated_at`
string differs from the stored `created_at` string (literal string
comparison, not a semantic timestamp comparison), and is empty exactly
when the two strings are literally equal. -/
theorem share_song_spec (db : DB) (song_id : Nat) :
    (findSong db song_id = none →
      share_song db song_id = .error ⟨404, "Song not found"⟩) ∧
    (∀ s, findSong db song_id = some s →
      share_song db song_id = .ok (share_html s) ∧
      strOccurs s.title (share_html s) ∧
      strOccurs (lyrics_display s) (share_html s) ∧
      strOccurs s.created_at (share_html s) ∧
      strOccurs (last_updated_line s) (share_html s) ∧
      (s.updated_at ≠ s.created_at →
        last_updated_line s =
          "<p>Last updated: " ++ (s.updated_at ++ "</p>")) ∧
      (s.updated_at = s.created_at → last_updated_line s = "")) := by
  constructor
  · intro h
    unfold share_song
    rw [h]
  · intro s h
    refine ⟨by unfold share_song; rw [h], share_html_title_occurs s,
      share_html_lyrics_occurs s, share_html_created_occurs s,
      share_html_updated_occurs s, fun hne => ?_, fun heq => ?_⟩
    · unfold last_updated_line
      rw [if_pos hne]
    · unfold last_updated_line
      rw [if_neg (not_not_intro heq)]

theorem share_song_spec_witness :
    share_song sampleDB 1 = .ok (share_html songAlpha) ∧
    last_updated_line songAlpha = "" :=
  ⟨((share_song_spec sampleDB 1).2 songAlpha (by decide)).1,
   ((share_song_spec sampleDB 1).2 songAlpha (by decide)).2.2.2.2.2.2
     (by decide)⟩

/-- **C10**: for an existing record the rendered page embeds the lyrics
slot, which is the placeholder `"No lyrics available for this song."`
exactly when the stored lyrics are the empty string, and the stored
lyrics verbatim otherwise. -/
theorem share_lyrics_placeholder (db : DB) (song_id : Nat) (s : Song)
    (h : findSong db song_id = some s) :
    share_song db song_id = .ok (share_html s) ∧
    strOccurs (lyrics_display s) (share_html s) ∧
    (s.lyrics = "" →
      lyrics_display s = "No lyrics available for this song.") ∧
    (s.lyrics ≠ "" → lyrics_display s = s.lyrics) := by
  refine ⟨by unfold share_song; rw [h], share_html_lyrics_occurs s,
    fun he => ?_, fun hne => ?_⟩
  · unfold lyrics_display
    rw [if_neg (not_not_intro he)]
  · unfold lyrics_display
    rw [if_pos hne]

theorem share_lyrics_placeholder_witness :
    share_song sampleDB 2 = .ok (share_html songBeta) ∧
    lyrics_display songBeta = "No lyrics available for this song." :=
  ⟨(share_lyrics_placeholder sampleDB 2 songBeta (by decide)).1,
   (share_lyrics_placeholder sampleDB 2 songBeta (by decide)).2.2.1
     (by decide)⟩

end Croatoa
